import Mathlib

/-!
Verification of the pwasm ERC20 token example (`src/contract/src/lib.rs`).

The contract state is a flat 32-byte-key / 256-bit-value store plus an
append-only event log.  Bytes are modelled as `Nat` (each < 256 for real
inputs), keys as byte lists, and 256-bit values as `Nat`; the `bigint`
crate's `U256` arithmetic panics on overflow, so the two state-changing
operations that perform arithmetic (`transfer`, `transferFrom`) return
`Option`: `none` models an aborted (panicking) invocation.  The caller
identity (`ext::sender()`) is threaded explicitly as an argument.

`allowance_key` uses the real Keccak-256 hash (the contract calls
`tiny_keccak`'s `new_keccak256`, i.e. rate 136 and the 0x01 multi-rate
padding delimiter), implemented below over `Nat` so that every definition
is executable by the kernel.
-/

namespace Erc20

/-! ### Keccak-256 (as used by `tiny_keccak::Keccak::new_keccak256`) -/

/-- Rotate a 64-bit lane left by `n` (0 ≤ n < 64). -/
def rotl64 (x n : Nat) : Nat :=
  ((x <<< n) ||| (x >>> (64 - n))) % (2 ^ 64)

/-- The 24 Keccak-f[1600] round constants. -/
def keccakRC : List Nat :=
  [0x0000000000000001, 0x0000000000008082, 0x800000000000808a, 0x8000000080008000,
   0x000000000000808b, 0x0000000080000001, 0x8000000080008081, 0x8000000000008009,
   0x000000000000008a, 0x0000000000000088, 0x0000000080008009, 0x000000008000000a,
   0x000000008000808b, 0x800000000000008b, 0x8000000000008089, 0x8000000000008003,
   0x8000000000008002, 0x8000000000000080, 0x000000000000800a, 0x800000008000000a,
   0x8000000080008081, 0x8000000000008080, 0x0000000080000001, 0x8000000080008008]

/-- One Keccak-f[1600] round (θ, ρ, π, χ, ι) on a 25-lane state,
lane `(x, y)` stored at index `x + 5 * y`. -/
def keccakRound (rc : Nat) (s : List Nat) : List Nat :=
  match s with
  | [a0, a1, a2, a3, a4, a5, a6, a7, a8, a9, a10, a11, a12,
     a13, a14, a15, a16, a17, a18, a19, a20, a21, a22, a23, a24] =>
    let c0 := a0 ^^^ a5 ^^^ a10 ^^^ a15 ^^^ a20
    let c1 := a1 ^^^ a6 ^^^ a11 ^^^ a16 ^^^ a21
    let c2 := a2 ^^^ a7 ^^^ a12 ^^^ a17 ^^^ a22
    let c3 := a3 ^^^ a8 ^^^ a13 ^^^ a18 ^^^ a23
    let c4 := a4 ^^^ a9 ^^^ a14 ^^^ a19 ^^^ a24
    let d0 := c4 ^^^ rotl64 c1 1
    let d1 := c0 ^^^ rotl64 c2 1
    let d2 := c1 ^^^ rotl64 c3 1
    let d3 := c2 ^^^ rotl64 c4 1
    let d4 := c3 ^^^ rotl64 c0 1
    let e0 := a0 ^^^ d0
    let e1 := a1 ^^^ d1
    let e2 := a2 ^^^ d2
    let e3 := a3 ^^^ d3
    let e4 := a4 ^^^ d4
    let e5 := a5 ^^^ d0
    let e6 := a6 ^^^ d1
    let e7 := a7 ^^^ d2
    let e8 := a8 ^^^ d3
    let e9 := a9 ^^^ d4
    let e10 := a10 ^^^ d0
    let e11 := a11 ^^^ d1
    let e12 := a12 ^^^ d2
    let e13 := a13 ^^^ d3
    let e14 := a14 ^^^ d4
    let e15 := a15 ^^^ d0
    let e16 := a16 ^^^ d1
    let e17 := a17 ^^^ d2
    let e18 := a18 ^^^ d3
    let e19 := a19 ^^^ d4
    let e20 := a20 ^^^ d0
    let e21 := a21 ^^^ d1
    let e22 := a22 ^^^ d2
    let e23 := a23 ^^^ d3
    let e24 := a24 ^^^ d4
    let b0 := e0
    let b1 := rotl64 e6 44
    let b2 := rotl64 e12 43
    let b3 := rotl64 e18 21
    let b4 := rotl64 e24 14
    let b5 := rotl64 e3 28
    let b6 := rotl64 e9 20
    let b7 := rotl64 e10 3
    let b8 := rotl64 e16 45
    let b9 := rotl64 e22 61
    let b10 := rotl64 e1 1
    let b11 := rotl64 e7 6
    let b12 := rotl64 e13 25
    let b13 := rotl64 e19 8
    let b14 := rotl64 e20 18
    let b15 := rotl64 e4 27
    let b16 := rotl64 e5 36
    let b17 := rotl64 e11 10
    let b18 := rotl64 e17 15
    let b19 := rotl64 e23 56
    let b20 := rotl64 e2 62
    let b21 := rotl64 e8 55
    let b22 := rotl64 e14 39
    let b23 := rotl64 e15 41
    let b24 := rotl64 e21 2
    let m : Nat := 2 ^ 64 - 1
    let f0 := b0 ^^^ ((m ^^^ b1) &&& b2)
    let f1 := b1 ^^^ ((m ^^^ b2) &&& b3)
    let f2 := b2 ^^^ ((m ^^^ b3) &&& b4)
    let f3 := b3 ^^^ ((m ^^^ b4) &&& b0)
    let f4 := b4 ^^^ ((m ^^^ b0) &&& b1)
    let f5 := b5 ^^^ ((m ^^^ b6) &&& b7)
    let f6 := b6 ^^^ ((m ^^^ b7) &&& b8)
    let f7 := b7 ^^^ ((m ^^^ b8) &&& b9)
    let f8 := b8 ^^^ ((m ^^^ b9) &&& b5)
    let f9 := b9 ^^^ ((m ^^^ b5) &&& b6)
    let f10 := b10 ^^^ ((m ^^^ b11) &&& b12)
    let f11 := b11 ^^^ ((m ^^^ b12) &&& b13)
    let f12 := b12 ^^^ ((m ^^^ b13) &&& b14)
    let f13 := b13 ^^^ ((m ^^^ b14) &&& b10)
    let f14 := b14 ^^^ ((m ^^^ b10) &&& b11)
    let f15 := b15 ^^^ ((m ^^^ b16) &&& b17)
    let f16 := b16 ^^^ ((m ^^^ b17) &&& b18)
    let f17 := b17 ^^^ ((m ^^^ b18) &&& b19)
    let f18 := b18 ^^^ ((m ^^^ b19) &&& b15)
    let f19 := b19 ^^^ ((m ^^^ b15) &&& b16)
    let f20 := b20 ^^^ ((m ^^^ b21) &&& b22)
    let f21 := b21 ^^^ ((m ^^^ b22) &&& b23)
    let f22 := b22 ^^^ ((m ^^^ b23) &&& b24)
    let f23 := b23 ^^^ ((m ^^^ b24) &&& b20)
    let f24 := b24 ^^^ ((m ^^^ b20) &&& b21)
    [f0 ^^^ rc, f1, f2, f3, f4, f5, f6, f7, f8, f9, f10, f11, f12,
     f13, f14, f15, f16, f17, f18, f19, f20, f21, f22, f23, f24]
  | _ => s

/-- The full Keccak-f[1600] permutation: 24 rounds. -/
def keccakf (s : List Nat) : List Nat :=
  keccakRC.foldl (fun st rc => keccakRound rc st) s

/-- Interpret up to 8 bytes as a little-endian 64-bit lane. -/
def bytesToLane (bs : List Nat) : Nat :=
  bs.foldr (fun b acc => b + 256 * acc) 0

/-- Serialize a 64-bit lane as 8 little-endian bytes. -/
def laneToBytes (x : Nat) : List Nat :=
  [x % 256, (x >>> 8) % 256, (x >>> 16) % 256, (x >>> 24) % 256,
   (x >>> 32) % 256, (x >>> 40) % 256, (x >>> 48) % 256, (x >>> 56) % 256]

/-- XOR one 136-byte rate block into the first 17 lanes and permute. -/
def absorbBlock (s : List Nat) (block : List Nat) : List Nat :=
  keccakf ((List.range 25).map
    (fun i => if i < 17 then s.getD i 0 ^^^ bytesToLane ((block.drop (8 * i)).take 8) else s.getD i 0))

/-- Absorb `n` rate blocks of a padded message. -/
def absorbBlocks : Nat → List Nat → List Nat → List Nat
  | 0, s, _ => s
  | n + 1, s, msg => absorbBlocks n (absorbBlock s (msg.take 136)) (msg.drop 136)

/-- Keccak multi-rate padding with delimiter 0x01 (as in
`Keccak::new_keccak256`): append 0x01, zero fill, set the top bit of the
last rate byte; a single padding byte collapses to 0x81. -/
def padKeccak (msg : List Nat) : List Nat :=
  let padlen := 136 - msg.length % 136
  if padlen = 1 then msg ++ [0x81]
  else msg ++ 0x01 :: (List.replicate (padlen - 2) 0 ++ [0x80])

/-- Keccak-256 of a byte sequence: pad, absorb at rate 136, squeeze the
first 32 bytes (4 lanes) of the final state. -/
def keccak256 (msg : List Nat) : List Nat :=
  let padded := padKeccak msg
  let s := absorbBlocks (padded.length / 136) (List.replicate 25 0) padded
  laneToBytes (s.getD 0 0) ++ laneToBytes (s.getD 1 0) ++
    laneToBytes (s.getD 2 0) ++ laneToBytes (s.getD 3 0)

/-! ### Ledger state -/

/-- A 20-byte account address (`pwasm_std::hash::Address`), as a byte list. -/
abbrev Address := List Nat

/-- A 32-byte storage key (`pwasm_std::hash::H256`), as a byte list. -/
abbrev Key := List Nat

/-- The persistent key/value store (`pwasm_ethereum::storage`): total map
from keys to 256-bit words, zero for keys never written. -/
abbrev Storage := Key → Nat

/-- `storage::write`: point update of the store. -/
def write (s : Storage) (k : Key) (v : Nat) : Storage :=
  fun k2 => if k2 = k then v else s k2

/-- The two event kinds declared in the `TokenContract` trait. -/
inductive Event where
  | Transfer : Address → Address → Nat → Event
  | Approval : Address → Address → Nat → Event
deriving DecidableEq

/-- Contract-visible state: the store plus the append-only event log. -/
structure State where
  store : Storage
  log : List Event

/-- `U256` values are the naturals below `2 ^ 256`; `bigint`'s checked
arithmetic panics when a sum reaches this limit. -/
def U256_LIMIT : Nat := 2 ^ 256

/-! ### Key derivation and storage helpers (lines 81-118 of lib.rs) -/

/-- `static TOTAL_SUPPLY_KEY: H256 = H256([2,0,...,0])`. -/
def TOTAL_SUPPLY_KEY : Key := 2 :: List.replicate 31 0

/-- `static OWNER_KEY: H256 = H256([3,0,...,0])`. -/
def OWNER_KEY : Key := 3 :: List.replicate 31 0

/-- `balance_key`: left-pad the 20-byte address into 32 bytes
(`H256::from(address)`) and overwrite byte 0 with the namespace byte 1. -/
def balance_key (address : Address) : Key :=
  1 :: (List.replicate 11 0 ++ address)

/-- The ASCII bytes of the tag string fed to Keccak first
(`keccak.update("allowance_key".as_ref())`). -/
def allowance_tag : List Nat :=
  [97, 108, 108, 111, 119, 97, 110, 99, 101, 95, 107, 101, 121]

/-- `allowance_key`: Keccak-256 of the tag, then the owner bytes, then the
spender bytes (three `update` calls concatenate the input). -/
def allowance_key (owner spender : Address) : Key :=
  keccak256 (allowance_tag ++ owner ++ spender)

/-- `read_balance_of`: read the store at the balance key. -/
def read_balance_of (s : Storage) (owner : Address) : Nat :=
  s (balance_key owner)

/-- `read_allowance`: read the store at an allowance key. -/
def read_allowance (s : Storage) (key : Key) : Nat :=
  s key

/-- `write_allowance`: write the store at an allowance key. -/
def write_allowance (s : Storage) (key : Key) (value : Nat) : Storage :=
  write s key value

/-- The owner slot stores `H256::from(sender)`, i.e. the address read as a
big-endian 256-bit word. -/
def addressToU256 (a : Address) : Nat :=
  a.foldl (fun acc b => 256 * acc + b) 0

/-! ### The contract operations (impl TokenContract, lines 122-185) -/

/-- `constructor(total_supply)` invoked by `sender`: write the total
supply, give the whole supply to the sender, record the owner.
No event is emitted and no validation is performed. -/
def constructor (st : State) (sender : Address) (total_supply : Nat) : State :=
  { st with
    store := write (write (write st.store TOTAL_SUPPLY_KEY total_supply)
                      (balance_key sender) total_supply)
               OWNER_KEY (addressToU256 sender) }

/-- `balanceOf(owner)`. -/
def balanceOf (st : State) (owner : Address) : Nat :=
  read_balance_of st.store owner

/-- `totalSupply()`. -/
def totalSupply (st : State) : Nat :=
  st.store TOTAL_SUPPLY_KEY

/-- `allowance(owner, spender)`. -/
def allowance (st : State) (owner spender : Address) : Nat :=
  read_allowance st.store (allowance_key owner spender)

/-- `transfer(to, amount)` invoked by `sender`.  Both balances are read
before the guard; on rejection the state is returned untouched with
`false`; otherwise the two balance slots are written (sender first) and a
`Transfer` event is emitted.  `recipientBalance + amount` overflowing
`U256` makes the `bigint` addition panic, modelled as `none`. -/
def transfer (st : State) (sender toAddr : Address) (amount : Nat) :
    Option (State × Bool) :=
  let senderBalance := read_balance_of st.store sender
  let recipientBalance := read_balance_of st.store toAddr
  if amount = 0 ∨ senderBalance < amount then
    some (st, false)
  else if recipientBalance + amount < U256_LIMIT then
    some ({ store := write (write st.store (balance_key sender) (senderBalance - amount))
                       (balance_key toAddr) (recipientBalance + amount),
            log := st.log ++ [Event.Transfer sender toAddr amount] }, true)
  else
    none

/-- `approve(spender, value)` invoked by `sender`: unconditionally
overwrite the allowance slot, emit `Approval`, return `true`. -/
def approve (st : State) (sender spender : Address) (value : Nat) :
    State × Bool :=
  ({ store := write_allowance st.store (allowance_key sender spender) value,
     log := st.log ++ [Event.Approval sender spender value] }, true)

/-- `transferFrom(from, to, amount)` invoked by `sender` (the spender).
All three reads (both balances, the allowance) precede the guard; on
rejection the state is returned untouched with `false`; otherwise the
allowance slot, the `from` balance and the `to` balance are written in
that order and one `Transfer` event is emitted.  Overflow of the
recipient addition is modelled as `none` (panic). -/
def transferFrom (st : State) (sender frm toAddr : Address) (amount : Nat) :
    Option (State × Bool) :=
  let fromBalance := read_balance_of st.store frm
  let recipientBalance := read_balance_of st.store toAddr
  let a_key := allowance_key frm sender
  let allowed := read_allowance st.store a_key
  if allowed < amount ∨ amount = 0 ∨ fromBalance < amount then
    some (st, false)
  else if recipientBalance + amount < U256_LIMIT then
    some ({ store := write (write (write_allowance st.store a_key (allowed - amount))
                              (balance_key frm) (fromBalance - amount))
                       (balance_key toAddr) (recipientBalance + amount),
            log := st.log ++ [Event.Transfer frm toAddr amount] }, true)
  else
    none

/-! ### Helper lemmas about the store and the key scheme -/

theorem write_same (s : Storage) (k : Key) (v : Nat) : write s k v k = v := by
  simp [write]

theorem write_ne (s : Storage) (k : Key) (v : Nat) (k2 : Key) (h : k2 ≠ k) :
    write s k v k2 = s k2 := by
  simp [write, h]

theorem balance_key_injective {a b : Address} (h : balance_key a = balance_key b) :
    a = b := by
  simp only [balance_key, List.cons.injEq, true_and] at h
  exact List.append_cancel_left h

theorem balance_key_ne_total_supply (a : Address) :
    balance_key a ≠ TOTAL_SUPPLY_KEY := by
  intro h
  simp [balance_key, TOTAL_SUPPLY_KEY] at h

theorem balance_key_ne_owner (a : Address) : balance_key a ≠ OWNER_KEY := by
  intro h
  simp [balance_key, OWNER_KEY] at h

theorem total_supply_key_ne_owner : TOTAL_SUPPLY_KEY ≠ OWNER_KEY := by
  decide

theorem keccak256_length (msg : List Nat) : (keccak256 msg).length = 32 := by
  simp [keccak256, laneToBytes]

theorem allowance_key_length (owner spender : Address) :
    (allowance_key owner spender).length = 32 :=
  keccak256_length _

/-! ### Concrete fixtures (addresses from the repository's tests) -/

/-- The owner address `0xea674fdde714fd979de3edf0f56aa9716b898ec8` from the tests. -/
def A1 : Address :=
  [234, 103, 79, 221, 231, 20, 253, 151, 157, 227,
   237, 240, 245, 106, 169, 113, 107, 137, 142, 200]

/-- The address `0xdb6fd484cfa46eeeb73c71edee823e4812f9e2e1` from the tests. -/
def A2 : Address :=
  [219, 111, 212, 132, 207, 164, 110, 238, 183, 60,
   113, 237, 238, 130, 62, 72, 18, 249, 226, 225]

/-- A third distinct 20-byte address. -/
def A3 : Address := List.replicate 20 7

/-- The store with nothing written yet: every key reads as zero. -/
def zeroStorage : Storage := fun _ => 0

/-- The initial state: empty store, empty log. -/
def st0 : State := { store := zeroStorage, log := [] }

/-- The state after `constructor(5)` invoked by `A1`. -/
def st1 : State := constructor st0 A1 5

/-- A state whose store holds 5 in every slot (so every balance and every
allowance reads as 5), with an empty log. -/
def st5 : State := { store := fun _ => 5, log := [] }

/-! ### Claims -/

/-- C9: `balance_key` is a pure function, injective on addresses, and its
output (first byte 1) never collides with the reserved `TOTAL_SUPPLY_KEY`
(first byte 2) or `OWNER_KEY` (first byte 3). -/
theorem c9_balance_key_collision_free (a b : Address) :
    (balance_key a = balance_key b → a = b) ∧
    balance_key a ≠ TOTAL_SUPPLY_KEY ∧ balance_key a ≠ OWNER_KEY :=
  ⟨fun h => balance_key_injective h,
   balance_key_ne_total_supply a, balance_key_ne_owner a⟩

/-- C9 witness: the property instantiated at the two concrete test addresses. -/
theorem c9_balance_key_collision_free_witness :
    (balance_key A1 = balance_key A2 → A1 = A2) ∧
    balance_key A1 ≠ TOTAL_SUPPLY_KEY ∧ balance_key A1 ≠ OWNER_KEY :=
  c9_balance_key_collision_free A1 A2

/-- C8: for every caller and every supply value (no validation), the
constructor writes `TotalSupply`, credits the entire supply to the caller,
records the owner, emits no event, and `totalSupply()` afterwards returns
the stored value exactly — including the maximal 256-bit value. -/
theorem c8_constructor_effects (st : State) (sender : Address) (ts : Nat) :
    totalSupply (constructor st sender ts) = ts ∧
    balanceOf (constructor st sender ts) sender = ts ∧
    (constructor st sender ts).store OWNER_KEY = addressToU256 sender ∧
    (constructor st sender ts).log = st.log ∧
    totalSupply (constructor st sender (U256_LIMIT - 1)) = U256_LIMIT - 1 := by
  have h1 : TOTAL_SUPPLY_KEY ≠ OWNER_KEY := total_supply_key_ne_owner
  have h2 : TOTAL_SUPPLY_KEY ≠ balance_key sender :=
    fun h => balance_key_ne_total_supply sender h.symm
  have h3 : balance_key sender ≠ OWNER_KEY := balance_key_ne_owner sender
  refine ⟨?_, ?_, ?_, rfl, ?_⟩ <;>
    simp [constructor, totalSupply, balanceOf, read_balance_of, write, h1, h2, h3]

/-- C7: `approve` never fails, overwrites (rather than accumulates) the
allowance of (caller, spender) with the new value, and emits one
`Approval` event; two consecutive approvals leave the second value. -/
theorem c7_approve_overwrites (st : State) (caller spender : Address)
    (v v1 v2 : Nat) :
    (approve st caller spender v).2 = true ∧
    allowance (approve st caller spender v).1 caller spender = v ∧
    (approve st caller spender v).1.log = st.log ++ [Event.Approval caller spender v] ∧
    allowance (approve (approve st caller spender v1).1 caller spender v2).1
        caller spender = v2 := by
  simp [approve, allowance, read_allowance, write_allowance, write]

/-- C4: `transfer` returns `false` exactly when `amount == 0` or the
sender's balance is below `amount`, and a rejected call returns the state
(store and log) untouched. -/
theorem c4_transfer_reject_iff (st : State) (sender toAddr : Address) (amount : Nat) :
    ((amount = 0 ∨ read_balance_of st.store sender < amount) →
      transfer st sender toAddr amount = some (st, false)) ∧
    (∀ st2 b, transfer st sender toAddr amount = some (st2, b) → b = false →
      (amount = 0 ∨ read_balance_of st.store sender < amount) ∧ st2 = st) := by
  refine ⟨fun h => by simp [transfer, h], fun st2 b heq hb => ?_⟩
  by_cases hc : amount = 0 ∨ read_balance_of st.store sender < amount
  · simp [transfer, hc] at heq
    exact ⟨hc, heq.1.symm⟩
  · exfalso
    by_cases ho : read_balance_of st.store toAddr + amount < U256_LIMIT
    · simp [transfer, hc, ho] at heq
      rw [hb] at heq
      exact Bool.noConfusion heq.2
    · simp [transfer, hc, ho] at heq

/-- C4 witness: with an empty store, a transfer of 1 from `A1` is rejected
without any state change. -/
theorem c4_transfer_reject_iff_witness :
    transfer st0 A1 A2 1 = some (st0, false) :=
  (c4_transfer_reject_iff st0 A1 A2 1).1 (Or.inr (by decide))

/-- C3: `transferFrom` returns `false` exactly when the caller's allowance
from `frm` is below `amount`, or `amount == 0`, or `frm`'s balance is
below `amount`; a rejected call returns the state (every balance, every
allowance, and the log) untouched. -/
theorem c3_transferFrom_reject_iff (st : State) (sender frm toAddr : Address)
    (amount : Nat) :
    ((read_allowance st.store (allowance_key frm sender) < amount ∨ amount = 0 ∨
        read_balance_of st.store frm < amount) →
      transferFrom st sender frm toAddr amount = some (st, false)) ∧
    (∀ st2 b, transferFrom st sender frm toAddr amount = some (st2, b) → b = false →
      (read_allowance st.store (allowance_key frm sender) < amount ∨ amount = 0 ∨
        read_balance_of st.store frm < amount) ∧ st2 = st) := by
  refine ⟨fun h => by simp [transferFrom, h], fun st2 b heq hb => ?_⟩
  by_cases hc : read_allowance st.store (allowance_key frm sender) < amount ∨
      amount = 0 ∨ read_balance_of st.store frm < amount
  · simp [transferFrom, hc] at heq
    exact ⟨hc, heq.1.symm⟩
  · exfalso
    by_cases ho : read_balance_of st.store toAddr + amount < U256_LIMIT
    · simp [transferFrom, hc, ho] at heq
      rw [hb] at heq
      exact Bool.noConfusion heq.2
    · simp [transferFrom, hc, ho] at heq

/-- C3 witness: with an empty store (zero allowance), a delegated transfer
of 1 is rejected without any state change. -/
theorem c3_transferFrom_reject_iff_witness :
    transferFrom st0 A2 A1 A3 1 = some (st0, false) :=
  (c3_transferFrom_reject_iff st0 A2 A1 A3 1).1 (Or.inl (by decide))

/-! ### Transfer success, self-transfer behavior, conservation -/

/-- The state actually produced by the self-transfer `transfer(A1, 1)` in
`st1`: the stale recipient read (5) plus the amount is written last, so
the single balance slot of `A1` ends at 6. -/
def stSelf : State :=
  { store := write (write st1.store (balance_key A1) 4) (balance_key A1) 6,
    log := [Event.Transfer A1 A1 1] }

/-- C5 counterexample: the self-transfer `transfer(A1, 1)` from balance 5
satisfies the claim's hypotheses (amount 1 is nonzero and within the
balance) and returns `true`, but the sender balance ends at 6, not at the
claimed 5 - 1 = 4. -/
theorem c5_transfer_success_counterexample :
    ((1 : Nat) ≠ 0 ∧ 1 ≤ read_balance_of st1.store A1) ∧
    transfer st1 A1 A1 1 = some (stSelf, true) ∧
    read_balance_of stSelf.store A1 = 6 ∧
    read_balance_of st1.store A1 - 1 = 4 ∧ (6 : Nat) ≠ 4 :=
  ⟨⟨by decide, by decide⟩, rfl, by decide, by decide, by decide⟩

/-- C5 (amended): for a recipient distinct from the sender and no
recipient-balance overflow, a transfer of a nonzero amount within the
sender's balance succeeds, debits the sender, credits the recipient, and
appends exactly one `Transfer` event. -/
theorem c5_transfer_success (st : State) (sender toAddr : Address) (amount : Nat)
    (h0 : amount ≠ 0) (h1 : amount ≤ read_balance_of st.store sender)
    (h2 : sender ≠ toAddr)
    (h3 : read_balance_of st.store toAddr + amount < U256_LIMIT) :
    ∃ st2, transfer st sender toAddr amount = some (st2, true) ∧
      read_balance_of st2.store sender = read_balance_of st.store sender - amount ∧
      read_balance_of st2.store toAddr = read_balance_of st.store toAddr + amount ∧
      st2.log = st.log ++ [Event.Transfer sender toAddr amount] := by
  have hc : ¬ (amount = 0 ∨ read_balance_of st.store sender < amount) := by
    rintro (h | h)
    · exact h0 h
    · exact absurd h (not_lt.mpr h1)
  have hbk : balance_key sender ≠ balance_key toAddr :=
    fun h => h2 (balance_key_injective h)
  refine ⟨{ store := write (write st.store (balance_key sender)
                        (read_balance_of st.store sender - amount))
                 (balance_key toAddr) (read_balance_of st.store toAddr + amount),
            log := st.log ++ [Event.Transfer sender toAddr amount] },
          ?_, ?_, ?_, rfl⟩
  · simp [transfer, hc, h3]
  · simp [read_balance_of, write, hbk]
  · simp [read_balance_of, write]

/-- C5 witness: the amended claim instantiated on the concrete transfer of
1 from `A1` (balance 5) to the distinct address `A2` (balance 0). -/
theorem c5_transfer_success_witness :
    ∃ st2, transfer st1 A1 A2 1 = some (st2, true) ∧
      read_balance_of st2.store A1 = read_balance_of st1.store A1 - 1 ∧
      read_balance_of st2.store A2 = read_balance_of st1.store A2 + 1 ∧
      st2.log = st1.log ++ [Event.Transfer A1 A2 1] :=
  c5_transfer_success st1 A1 A2 1 (by decide) (by decide) (by decide) (by decide)

/-- C2: the code behavior at the claim's input: the self-transfer
`transfer(A1, 1)` from balance 5 returns `true` but does not leave the
balance unchanged — the stale recipient read is written last, so the
balance ends at 6 (the call mints the amount). -/
theorem c2_self_transfer_mints :
    ((1 : Nat) ≠ 0 ∧ 1 ≤ read_balance_of st1.store A1) ∧
    transfer st1 A1 A1 1 = some (stSelf, true) ∧
    read_balance_of st1.store A1 = 5 ∧
    read_balance_of stSelf.store A1 = 6 ∧ (6 : Nat) ≠ 5 :=
  ⟨⟨by decide, by decide⟩, rfl, by decide, by decide, by decide⟩

/-- Sum of the balances of a list of addresses. -/
def sumBalances (st : State) (addrs : List Address) : Nat :=
  (addrs.map (fun a => read_balance_of st.store a)).sum

/-- C1: the code behavior at the failing input: from `constructor(5)`
invoked by `A1`, the successful self-transfer `transfer(A1, 1)` raises the
sum of the balances over every address ever touched (only `A1`) to 6
while `TotalSupply` stays 5 — value conservation is violated. -/
theorem c1_conservation_violated :
    totalSupply st1 = 5 ∧ sumBalances st1 [A1] = 5 ∧
    transfer st1 A1 A1 1 = some (stSelf, true) ∧
    sumBalances stSelf [A1] = 6 ∧ totalSupply stSelf = 5 ∧ (6 : Nat) ≠ 5 :=
  ⟨by decide, by decide, rfl, by decide, by decide, by decide⟩

/-! ### Delegated transfer -/

/-- The state actually produced by the delegated self-transfer
`transferFrom(A1, A1, 1)` called by `A2` in `st5`: the allowance slot
drops to 4, and the single balance slot of `A1` ends at the stale
recipient read plus the amount, 6. -/
def stSelfFrom : State :=
  { store := write (write (write st5.store (allowance_key A1 A2) 4)
                      (balance_key A1) 4)
               (balance_key A1) 6,
    log := [Event.Transfer A1 A1 1] }

/-- C6 counterexample: with every slot reading 5, the delegated
self-transfer `transferFrom(A1, A1, 1)` called by `A2` satisfies the
claim's hypotheses and returns `true`, but `Balance(A1)` ends at 6, not
at the claimed 5 - 1 = 4. -/
theorem c6_transferFrom_success_counterexample :
    ((1 : Nat) ≠ 0 ∧ 1 ≤ allowance st5 A1 A2 ∧ 1 ≤ read_balance_of st5.store A1) ∧
    transferFrom st5 A2 A1 A1 1 = some (stSelfFrom, true) ∧
    read_balance_of stSelfFrom.store A1 = 6 ∧
    read_balance_of st5.store A1 - 1 = 4 ∧ (6 : Nat) ≠ 4 :=
  ⟨⟨by decide, by decide, by decide⟩, rfl, by decide, by decide, by decide⟩

/-- C6 (amended): for `frm` distinct from the recipient, no
recipient-balance overflow, and an allowance key that does not collide
with the two balance keys (the key-scheme design constraint), a delegated
transfer of a nonzero amount within both the allowance and `frm`'s
balance succeeds, debits the allowance and `frm`'s balance, credits the
recipient, and appends exactly one `Transfer` event. -/
theorem c6_transferFrom_success (st : State) (sender frm toAddr : Address)
    (amount : Nat)
    (h0 : amount ≠ 0)
    (h1 : amount ≤ read_allowance st.store (allowance_key frm sender))
    (h2 : amount ≤ read_balance_of st.store frm)
    (h3 : frm ≠ toAddr)
    (h4 : read_balance_of st.store toAddr + amount < U256_LIMIT)
    (h5 : allowance_key frm sender ≠ balance_key frm)
    (h6 : allowance_key frm sender ≠ balance_key toAddr) :
    ∃ st2, transferFrom st sender frm toAddr amount = some (st2, true) ∧
      allowance st2 frm sender = allowance st frm sender - amount ∧
      read_balance_of st2.store frm = read_balance_of st.store frm - amount ∧
      read_balance_of st2.store toAddr = read_balance_of st.store toAddr + amount ∧
      st2.log = st.log ++ [Event.Transfer frm toAddr amount] := by
  have hc : ¬ (read_allowance st.store (allowance_key frm sender) < amount ∨
      amount = 0 ∨ read_balance_of st.store frm < amount) := by
    rintro (h | h | h)
    · exact absurd h (not_lt.mpr h1)
    · exact h0 h
    · exact absurd h (not_lt.mpr h2)
  have hbk : balance_key frm ≠ balance_key toAddr :=
    fun h => h3 (balance_key_injective h)
  refine ⟨{ store := write (write (write_allowance st.store (allowance_key frm sender)
                          (read_allowance st.store (allowance_key frm sender) - amount))
                        (balance_key frm) (read_balance_of st.store frm - amount))
                 (balance_key toAddr) (read_balance_of st.store toAddr + amount),
            log := st.log ++ [Event.Transfer frm toAddr amount] },
          ?_, ?_, ?_, ?_, rfl⟩
  · simp [transferFrom, hc, h4]
  · simp [allowance, read_allowance, write_allowance, write, h5, h6]
  · simp [read_balance_of, write_allowance, write, hbk, h5]
  · simp [read_balance_of, write]

set_option maxRecDepth 100000 in
/-- C6 witness: the amended claim instantiated on the delegated transfer
of 1 from `A1` to the distinct address `A3` called by `A2`, in the state
where every slot reads 5; the hash-disjointness side conditions are
discharged by computing the Keccak allowance key. -/
theorem c6_transferFrom_success_witness :
    ∃ st2, transferFrom st5 A2 A1 A3 1 = some (st2, true) ∧
      allowance st2 A1 A2 = allowance st5 A1 A2 - 1 ∧
      read_balance_of st2.store A1 = read_balance_of st5.store A1 - 1 ∧
      read_balance_of st2.store A3 = read_balance_of st5.store A3 + 1 ∧
      st2.log = st5.log ++ [Event.Transfer A1 A3 1] :=
  c6_transferFrom_success st5 A2 A1 A3 1 (by decide) (by decide) (by decide)
    (by decide) (by decide) (by decide) (by decide)

/-! ### Frame disjointness -/

/-- C10: write-set frames: a successful `transfer` writes only the two
balance slots of sender and recipient (so `TotalSupply` and `Owner` are
untouched); `approve` writes only the allowance slot of (caller,
spender); a successful `transferFrom` writes only the allowance slot of
(`frm`, caller) and the balance slots of `frm` and the recipient. -/
theorem c10_frame_disjointness :
    (∀ st sender toAddr amount st2,
      transfer st sender toAddr amount = some (st2, true) →
      (∀ k, k ≠ balance_key sender → k ≠ balance_key toAddr →
        st2.store k = st.store k) ∧
      totalSupply st2 = totalSupply st ∧
      st2.store OWNER_KEY = st.store OWNER_KEY) ∧
    (∀ st caller spender v k, k ≠ allowance_key caller spender →
      ((approve st caller spender v).1).store k = st.store k) ∧
    (∀ st sender frm toAddr amount st2,
      transferFrom st sender frm toAddr amount = some (st2, true) →
      ∀ k, k ≠ allowance_key frm sender → k ≠ balance_key frm →
        k ≠ balance_key toAddr → st2.store k = st.store k) := by
  refine ⟨?_, ?_, ?_⟩
  · intro st sender toAddr amount st2 heq
    by_cases hc : amount = 0 ∨ read_balance_of st.store sender < amount
    · simp [transfer, hc] at heq
    · by_cases ho : read_balance_of st.store toAddr + amount < U256_LIMIT
      · simp [transfer, hc, ho] at heq
        subst heq
        refine ⟨fun k hk1 hk2 => ?_, ?_, ?_⟩
        · simp [write, hk1, hk2]
        · have e1 : TOTAL_SUPPLY_KEY ≠ balance_key sender :=
            (balance_key_ne_total_supply sender).symm
          have e2 : TOTAL_SUPPLY_KEY ≠ balance_key toAddr :=
            (balance_key_ne_total_supply toAddr).symm
          simp [totalSupply, write, e1, e2]
        · have e1 : OWNER_KEY ≠ balance_key sender :=
            (balance_key_ne_owner sender).symm
          have e2 : OWNER_KEY ≠ balance_key toAddr :=
            (balance_key_ne_owner toAddr).symm
          simp [write, e1, e2]
      · simp [transfer, hc, ho] at heq
  · intro st caller spender v k hk
    simp [approve, write_allowance, write, hk]
  · intro st sender frm toAddr amount st2 heq k hk1 hk2 hk3
    by_cases hc : read_allowance st.store (allowance_key frm sender) < amount ∨
        amount = 0 ∨ read_balance_of st.store frm < amount
    · simp [transferFrom, hc] at heq
    · by_cases ho : read_balance_of st.store toAddr + amount < U256_LIMIT
      · simp [transferFrom, hc, ho] at heq
        subst heq
        simp [write, write_allowance, hk1, hk2, hk3]
      · simp [transferFrom, hc, ho] at heq

/-- The state produced by the successful transfer of 1 from `A1` to `A2`
in `st1`. -/
def stT : State :=
  { store := write (write st1.store (balance_key A1) 4) (balance_key A2) 1,
    log := [Event.Transfer A1 A2 1] }

/-- The state produced by the successful `transferFrom(A1, A3, 1)` called
by `A2` in `st5`. -/
def stF : State :=
  { store := write (write (write st5.store (allowance_key A1 A2) 4)
                      (balance_key A1) 4)
               (balance_key A3) 6,
    log := [Event.Transfer A1 A3 1] }

set_option maxRecDepth 100000 in
/-- C10 witness: on concrete successful `transfer`, `approve`, and
`transferFrom` calls, the reserved total-supply slot is untouched; for
the two allowance-writing operations the required key inequality is
checked by computing the Keccak allowance key. -/
theorem c10_frame_disjointness_witness :
    stT.store TOTAL_SUPPLY_KEY = st1.store TOTAL_SUPPLY_KEY ∧
    ((approve st0 A1 A2 7).1).store TOTAL_SUPPLY_KEY = st0.store TOTAL_SUPPLY_KEY ∧
    stF.store TOTAL_SUPPLY_KEY = st5.store TOTAL_SUPPLY_KEY :=
  ⟨(c10_frame_disjointness.1 st1 A1 A2 1 stT rfl).1 TOTAL_SUPPLY_KEY
      (by decide) (by decide),
   c10_frame_disjointness.2.1 st0 A1 A2 7 TOTAL_SUPPLY_KEY (by decide),
   c10_frame_disjointness.2.2 st5 A2 A1 A3 1 stF rfl TOTAL_SUPPLY_KEY
      (by decide) (by decide) (by decide)⟩

end Erc20
